import Mathlib

/-!
Verification of the yotredash node-graph renderer core.

The development below is a shallow embedding of the three source files

  * src/config/nodes.rs   (node configuration schema, NodeParameter),
  * src/opengl/buffer.rs  (Buffer: render pass construction and execution),
  * src/main.rs           (event loop: pointer state, reload handling),

together with theorems settling the specification claims about them.
Rust machine floats carried by the pointer/time/uniform values only undergo
subtraction here, so they are embedded as rationals; shared
`Rc<RefCell<Buffer>>` handles are embedded as indices into an arena list of
buffers, and GPU work is embedded as a trace of clear/draw events.
-/

namespace Yotredash

/-! ### src/config/nodes.rs -/

/-- NodeParameter from src/config/nodes.rs: a parameter to a node which can
either be a static value or a pointer (by name) to the output of a different
node. -/
inductive NodeParameter (T : Type) where
  | NodeConnection (name : String)
  | Static (v : T)
deriving DecidableEq

/-- The `impl<T: Default> Default for NodeParameter<T>`: the default parameter
is `Static(Default::default())`. -/
instance (T : Type) [Inhabited T] : Inhabited (NodeParameter T) :=
  ⟨NodeParameter.Static default⟩

/-- NodeParameter::or_default from src/config/nodes.rs: returns the inner
value if `Static`, or `Default::default()` if a `NodeConnection`. -/
def NodeParameter.or_default {T : Type} [Inhabited T] : NodeParameter T → T
  | NodeParameter.Static v => v
  | NodeParameter.NodeConnection _ => default

/-- ImageConfig from src/config/nodes.rs (no `deny_unknown_fields`
attribute on this struct). -/
structure ImageConfig where
  path : String
deriving DecidableEq

/-- ShaderConfig from src/config/nodes.rs (`deny_unknown_fields`). -/
structure ShaderConfig where
  vertex : String
  fragment : String
  inputs : List String
deriving DecidableEq

/-- Blend node operations from src/config/nodes.rs
(`rename_all = "snake_case"`). -/
inductive BlendOp where
  | Min
  | Max
  | Add
  | Sub
deriving DecidableEq

/-- BlendConfig from src/config/nodes.rs (`deny_unknown_fields`). -/
structure BlendConfig where
  operation : BlendOp
  inputs : List String
deriving DecidableEq

/-- TextConfig from src/config/nodes.rs (`deny_unknown_fields`); the f32
fields are embedded as rationals. -/
structure TextConfig where
  text : NodeParameter String
  position : NodeParameter (ℚ × ℚ)
  color : NodeParameter (ℚ × ℚ × ℚ × ℚ)
  font_name : String
  font_size : ℚ
deriving DecidableEq

/-- FpsConfig from src/config/nodes.rs (`deny_unknown_fields`). -/
structure FpsConfig where
  position : ℚ × ℚ
  color : NodeParameter (ℚ × ℚ × ℚ × ℚ)
  font_name : String
  font_size : ℚ
  interval : ℚ
deriving DecidableEq

/-- NodeConfig from src/config/nodes.rs: internally tagged by `type`,
`rename_all = "snake_case"`. -/
inductive NodeConfig where
  | Image (c : ImageConfig)
  | Shader (c : ShaderConfig)
  | Blend (c : BlendConfig)
  | Text (c : TextConfig)
  | Fps (c : FpsConfig)
deriving DecidableEq

/-- Deserialization input values (the parsed configuration file content fed
to the serde deserializers derived in src/config/nodes.rs). -/
inductive CVal where
  | str (s : String)
  | num (q : ℚ)
  | arr (vs : List CVal)
  | obj (fields : List (String × CVal))

/-- Serde semantics of a string field. -/
def parseStr : CVal → Except String String
  | CVal.str s => Except.ok s
  | _ => Except.error "expected string"

/-- Serde semantics of an f32 field (embedded as a rational). -/
def parseNum : CVal → Except String ℚ
  | CVal.num q => Except.ok q
  | _ => Except.error "expected number"

/-- Serde semantics of a `Vec<String>` field. -/
def parseStrList : CVal → Except String (List String)
  | CVal.arr vs =>
    vs.foldr
      (fun v acc =>
        match parseStr v, acc with
        | Except.ok s, Except.ok ss => Except.ok (s :: ss)
        | Except.error e, _ => Except.error e
        | _, Except.error e => Except.error e)
      (Except.ok [])
  | _ => Except.error "expected sequence"

/-- Serde semantics of an `[f32; 2]` field. -/
def parseVec2 : CVal → Except String (ℚ × ℚ)
  | CVal.arr [CVal.num a, CVal.num b] => Except.ok (a, b)
  | _ => Except.error "expected an array of 2 numbers"

/-- Serde semantics of an `[f32; 4]` field. -/
def parseVec4 : CVal → Except String (ℚ × ℚ × ℚ × ℚ)
  | CVal.arr [CVal.num a, CVal.num b, CVal.num c, CVal.num d] =>
    Except.ok (a, b, c, d)
  | _ => Except.error "expected an array of 4 numbers"

/-- Serde semantics of the derived `Deserialize` for `NodeParameter<T>`
(src/config/nodes.rs): an externally tagged enum with variants
`NodeConnection(String)` and `Static(T)`. -/
def parseNodeParameter {T : Type} (pt : CVal → Except String T) :
    CVal → Except String (NodeParameter T)
  | CVal.obj [(k, v)] =>
    if k = "NodeConnection" then
      (parseStr v).map NodeParameter.NodeConnection
    else if k = "Static" then
      (pt v).map NodeParameter.Static
    else
      Except.error "unknown variant of NodeParameter"
  | _ => Except.error "expected NodeParameter"

/-- Serde semantics of the derived `Deserialize` for `BlendOp`
(`rename_all = "snake_case"`). -/
def parseBlendOp : CVal → Except String BlendOp
  | CVal.str "min" => Except.ok BlendOp.Min
  | CVal.str "max" => Except.ok BlendOp.Max
  | CVal.str "add" => Except.ok BlendOp.Add
  | CVal.str "sub" => Except.ok BlendOp.Sub
  | _ => Except.error "unknown variant of BlendOp"

/-- Serde-derived deserializer for ImageConfig. The struct carries no
`deny_unknown_fields` attribute, so a field key other than `path` is
skipped, not rejected. The accumulator holds the `path` value seen so far. -/
def imageFromFields : List (String × CVal) → Option String →
    Except String ImageConfig
  | [], none => Except.error "missing field path"
  | [], some p => Except.ok ⟨p⟩
  | (k, v) :: rest, acc =>
    if k = "path" then
      match acc with
      | some _ => Except.error "duplicate field path"
      | none =>
        match parseStr v with
        | Except.ok s => imageFromFields rest (some s)
        | Except.error e => Except.error e
    else
      imageFromFields rest acc

/-- Serde-derived deserializer for ShaderConfig (`deny_unknown_fields`):
an unknown field key is an error; `inputs` has a `serde(default)`. -/
def shaderFromFields : List (String × CVal) → Option String → Option String →
    Option (List String) → Except String ShaderConfig
  | [], none, _, _ => Except.error "missing field vertex"
  | [], some _, none, _ => Except.error "missing field fragment"
  | [], some vtx, some frg, inp => Except.ok ⟨vtx, frg, inp.getD []⟩
  | (k, v) :: rest, vtx, frg, inp =>
    if k = "vertex" then
      match vtx with
      | some _ => Except.error "duplicate field vertex"
      | none =>
        match parseStr v with
        | Except.ok s => shaderFromFields rest (some s) frg inp
        | Except.error e => Except.error e
    else if k = "fragment" then
      match frg with
      | some _ => Except.error "duplicate field fragment"
      | none =>
        match parseStr v with
        | Except.ok s => shaderFromFields rest vtx (some s) inp
        | Except.error e => Except.error e
    else if k = "inputs" then
      match inp with
      | some _ => Except.error "duplicate field inputs"
      | none =>
        match parseStrList v with
        | Except.ok ss => shaderFromFields rest vtx frg (some ss)
        | Except.error e => Except.error e
    else
      Except.error "unknown field"

/-- Serde-derived deserializer for BlendConfig (`deny_unknown_fields`). -/
def blendFromFields : List (String × CVal) → Option BlendOp →
    Option (List String) → Except String BlendConfig
  | [], none, _ => Except.error "missing field operation"
  | [], some _, none => Except.error "missing field inputs"
  | [], some op, some inp => Except.ok ⟨op, inp⟩
  | (k, v) :: rest, op, inp =>
    if k = "operation" then
      match op with
      | some _ => Except.error "duplicate field operation"
      | none =>
        match parseBlendOp v with
        | Except.ok o => blendFromFields rest (some o) inp
        | Except.error e => Except.error e
    else if k = "inputs" then
      match inp with
      | some _ => Except.error "duplicate field inputs"
      | none =>
        match parseStrList v with
        | Except.ok ss => blendFromFields rest op (some ss)
        | Except.error e => Except.error e
    else
      Except.error "unknown field"

/-- Accumulator for the TextConfig deserializer. -/
structure TextAcc where
  text : Option (NodeParameter String)
  position : Option (NodeParameter (ℚ × ℚ))
  color : Option (NodeParameter (ℚ × ℚ × ℚ × ℚ))
  font_name : Option String
  font_size : Option ℚ

/-- Serde-derived deserializer for TextConfig (`deny_unknown_fields`); the
defaults mirror the `serde(default ...)` attributes and helper functions
`text_default_color` and `text_default_font_size` in src/config/nodes.rs. -/
def textFromFields : List (String × CVal) → TextAcc → Except String TextConfig
  | [], acc =>
    match acc.text with
    | none => Except.error "missing field text"
    | some t =>
      Except.ok
        ⟨t, acc.position.getD (NodeParameter.Static (0, 0)),
          acc.color.getD (NodeParameter.Static (1, 1, 1, 1)),
          acc.font_name.getD "", acc.font_size.getD 20⟩
  | (k, v) :: rest, acc =>
    if k = "text" then
      match acc.text with
      | some _ => Except.error "duplicate field text"
      | none =>
        match parseNodeParameter parseStr v with
        | Except.ok t => textFromFields rest { acc with text := some t }
        | Except.error e => Except.error e
    else if k = "position" then
      match acc.position with
      | some _ => Except.error "duplicate field position"
      | none =>
        match parseNodeParameter parseVec2 v with
        | Except.ok p => textFromFields rest { acc with position := some p }
        | Except.error e => Except.error e
    else if k = "color" then
      match acc.color with
      | some _ => Except.error "duplicate field color"
      | none =>
        match parseNodeParameter parseVec4 v with
        | Except.ok c => textFromFields rest { acc with color := some c }
        | Except.error e => Except.error e
    else if k = "font_name" then
      match acc.font_name with
      | some _ => Except.error "duplicate field font_name"
      | none =>
        match parseStr v with
        | Except.ok s => textFromFields rest { acc with font_name := some s }
        | Except.error e => Except.error e
    else if k = "font_size" then
      match acc.font_size with
      | some _ => Except.error "duplicate field font_size"
      | none =>
        match parseNum v with
        | Except.ok q => textFromFields rest { acc with font_size := some q }
        | Except.error e => Except.error e
    else
      Except.error "unknown field"

/-- Accumulator for the FpsConfig deserializer. -/
structure FpsAcc where
  position : Option (ℚ × ℚ)
  color : Option (NodeParameter (ℚ × ℚ × ℚ × ℚ))
  font_name : Option String
  font_size : Option ℚ
  interval : Option ℚ

/-- Serde-derived deserializer for FpsConfig (`deny_unknown_fields`); the
defaults mirror the `serde(default ...)` attributes and the helpers
`text_default_color`, `text_default_font_size` and `fps_default_interval`. -/
def fpsFromFields : List (String × CVal) → FpsAcc → Except String FpsConfig
  | [], acc =>
    Except.ok
      ⟨acc.position.getD (0, 0),
        acc.color.getD (NodeParameter.Static (1, 1, 1, 1)),
        acc.font_name.getD "", acc.font_size.getD 20, acc.interval.getD 1⟩
  | (k, v) :: rest, acc =>
    if k = "position" then
      match acc.position with
      | some _ => Except.error "duplicate field position"
      | none =>
        match parseVec2 v with
        | Except.ok p => fpsFromFields rest { acc with position := some p }
        | Except.error e => Except.error e
    else if k = "color" then
      match acc.color with
      | some _ => Except.error "duplicate field color"
      | none =>
        match parseNodeParameter parseVec4 v with
        | Except.ok c => fpsFromFields rest { acc with color := some c }
        | Except.error e => Except.error e
    else if k = "font_name" then
      match acc.font_name with
      | some _ => Except.error "duplicate field font_name"
      | none =>
        match parseStr v with
        | Except.ok s => fpsFromFields rest { acc with font_name := some s }
        | Except.error e => Except.error e
    else if k = "font_size" then
      match acc.font_size with
      | some _ => Except.error "duplicate field font_size"
      | none =>
        match parseNum v with
        | Except.ok q => fpsFromFields rest { acc with font_size := some q }
        | Except.error e => Except.error e
    else if k = "interval" then
      match acc.interval with
      | some _ => Except.error "duplicate field interval"
      | none =>
        match parseNum v with
        | Except.ok q => fpsFromFields rest { acc with interval := some q }
        | Except.error e => Except.error e
    else
      Except.error "unknown field"

/-- Tag extraction of serde's internally tagged representation: the first
`type` entry is the tag, every other entry is content for the variant. -/
def extractTag : List (String × CVal) → Option (CVal × List (String × CVal))
  | [] => none
  | (k, v) :: rest =>
    if k = "type" then
      some (v, rest)
    else
      (extractTag rest).map fun r => (r.1, (k, v) :: r.2)

/-- Serde-derived deserializer for NodeConfig: internally tagged by `type`
with `rename_all = "snake_case"`; the content fields are handed to the
deserializer of the tagged variant. -/
def nodeFromFields (fields : List (String × CVal)) : Except String NodeConfig :=
  match extractTag fields with
  | none => Except.error "missing field type"
  | some (CVal.str "image", rest) => (imageFromFields rest none).map NodeConfig.Image
  | some (CVal.str "shader", rest) =>
    (shaderFromFields rest none none none).map NodeConfig.Shader
  | some (CVal.str "blend", rest) => (blendFromFields rest none none).map NodeConfig.Blend
  | some (CVal.str "text", rest) =>
    (textFromFields rest ⟨none, none, none, none, none⟩).map NodeConfig.Text
  | some (CVal.str "fps", rest) =>
    (fpsFromFields rest ⟨none, none, none, none, none⟩).map NodeConfig.Fps
  | some _ => Except.error "unknown variant of type"

/-- True exactly on a deserialization failure. -/
def isSchemaError {α : Type} : Except String α → Bool
  | Except.error _ => true
  | Except.ok _ => false

/-! ### src/main.rs, pointer handling -/

/-- The pointer state of the event loop in src/main.rs: a 4-tuple holding
current x, current y, drag-origin x, drag-origin y. -/
structure Pointer4 where
  p0 : ℚ
  p1 : ℚ
  p2 : ℚ
  p3 : ℚ
deriving DecidableEq

/-- Window events affecting the pointer state in src/main.rs. -/
inductive PointerEvent where
  | mouseMoved (x y : ℚ)
  | mousePressed
  | mouseReleased
deriving DecidableEq

/-- Pointer-state transition of the event loop in src/main.rs: `MouseMoved`
keeps the drag components, a left-button `Pressed` copies the current
position into the drag components, and `Released` sets them to (0.0, 0.0). -/
def pointerStep (p : Pointer4) : PointerEvent → Pointer4
  | PointerEvent.mouseMoved x y => ⟨x, y, p.p2, p.p3⟩
  | PointerEvent.mousePressed => ⟨p.p0, p.p1, p.p0, p.p1⟩
  | PointerEvent.mouseReleased => ⟨p.p0, p.p1, 0, 0⟩

/-! ### src/opengl/buffer.rs -/

/-- A GPU texture (`glium::texture::Texture2d`): identity plus dimensions.
The numeric id stands for object identity of the allocated texture. -/
structure Texture where
  tid : Nat
  width : Nat
  height : Nat
deriving DecidableEq

/-- The Buffer struct from src/opengl/buffer.rs. The
`Vec<Rc<RefCell<Buffer>>>` of dependencies is embedded as a list of indices
into an arena list of buffers, which models the shared mutable handles. -/
structure Buffer where
  texture : Texture
  program : Nat
  attachments : List Texture
  depends : List Nat
deriving DecidableEq

/-- The arena holding every Buffer; a `Rc<RefCell<Buffer>>` is an index. -/
def Graph : Type := List Buffer

/-- Placeholder buffer for arena lookups; a live `Rc` in the Rust code can
never dangle, so theorems about lookups carry the corresponding bound. -/
def dummyBuffer : Buffer := ⟨⟨0, 0, 0⟩, 0, [], []⟩

/-- Arena lookup standing for dereferencing a `Rc<RefCell<Buffer>>`. -/
def depBuffer (g : Graph) (d : Nat) : Buffer :=
  List.getD g d dummyBuffer

/-- Buffer::link_depends from src/opengl/buffer.rs: appends the given
dependency handles to `self.depends`. No inspection of the dependency graph
happens here; in particular nothing rejects a cyclic set of links. -/
def Buffer.link_depends (b : Buffer) (ds : List Nat) : Buffer :=
  { b with depends := b.depends ++ ds }

/-- Buffer::resize from src/opengl/buffer.rs: the backing texture is
replaced by a freshly allocated empty texture of the new dimensions. -/
def Buffer.resize (b : Buffer) (fresh : Nat) (width height : Nat) : Buffer :=
  { b with texture := ⟨fresh, width, height⟩ }

/-- A render target surface: the visible screen or a buffer's backing
texture (`Texture2d::as_surface`), carrying `get_dimensions`. -/
inductive Surf where
  | screen (w h : Nat)
  | tex (t : Texture)
deriving DecidableEq

/-- Surface::get_dimensions, as (width, height). -/
def Surf.dims : Surf → Nat × Nat
  | Surf.screen w h => (w, h)
  | Surf.tex t => (t.width, t.height)

/-- A uniform value pushed into UniformsStorageVec (src/opengl/buffer.rs):
the resolution pair, the time float, the pointer vector, or a sampled
texture. -/
inductive UVal where
  | uvec2 (x y : Nat)
  | ufloat (x : ℚ)
  | uvec4 (x y z w : ℚ)
  | usampler (t : Texture)
deriving DecidableEq

/-- The pointer uniform pushed in Buffer::render_to: component 1 is
`get_dimensions().0 - pointer[1]` (the first projection of the dimensions is
the surface width), component 3 is `get_dimensions().1 - pointer[3]`. -/
def pointerUniform (dims : Nat × Nat) (p : Pointer4) : UVal :=
  UVal.uvec4 p.p0 ((dims.1 : ℚ) - p.p1) p.p2 ((dims.2 : ℚ) - p.p3)

/-- The `texture{index}` sampler uniforms pushed by the attachment loop of
Buffer::render_to, with the running enumeration index made explicit. -/
def textureUniforms : Nat → List Texture → List (String × UVal)
  | _, [] => []
  | i, t :: ts =>
    ("texture" ++ Nat.repr i, UVal.usampler t) :: textureUniforms (i + 1) ts

/-- The `buffer{index}` sampler uniforms pushed by the dependency loop of
Buffer::render_to: each is the sampled backing texture of the dependency. -/
def bufferUniforms (g : Graph) : Nat → List Nat → List (String × UVal)
  | _, [] => []
  | i, d :: ds =>
    ("buffer" ++ Nat.repr i, UVal.usampler (depBuffer g d).texture) ::
      bufferUniforms g (i + 1) ds

/-- The full uniform list a Buffer::render_to invocation hands to
`surface.draw`: resolution, time, the pointer vector, one sampler per
attachment and one sampler per dependency, in push order. -/
def assembleUniforms (g : Graph) (b : Buffer) (dims : Nat × Nat) (time : ℚ)
    (p : Pointer4) : List (String × UVal) :=
  ("resolution", UVal.uvec2 dims.1 dims.2) ::
    ("time", UVal.ufloat time) ::
      ("pointer", pointerUniform dims p) ::
        (textureUniforms 0 b.attachments ++ bufferUniforms g 0 b.depends)

/-- Observable GPU submissions of Buffer::render_to: a clear_color call and
a draw call, each on a concrete surface. -/
inductive Event where
  | clear (s : Surf) (r g b a : ℚ)
  | draw (s : Surf) (uniforms : List (String × UVal))
deriving DecidableEq

/-- Buffer::render_to from src/opengl/buffer.rs, as the trace of GPU events
it submits: it first clears the surface to (0.0, 0.0, 0.0, 1.0), then for
each dependency calls `render_to_self` on it (which recursively renders the
dependency into its own backing texture), and finally draws to the surface
with the assembled uniforms. The recursion of the Rust code has no
termination guard, so the embedding spends one unit of fuel per invocation
and returns none when the recursion does not bottom out. -/
def renderTo (g : Graph) : Nat → Buffer → Surf → ℚ → Pointer4 →
    Option (List Event)
  | 0, _, _, _, _ => none
  | Nat.succ fuel, b, s, time, p =>
    match
      b.depends.foldr
        (fun d acc =>
          match acc with
          | none => none
          | some rest =>
            match renderTo g fuel (depBuffer g d)
                (Surf.tex (depBuffer g d).texture) time p with
            | none => none
            | some tr => some (tr ++ rest))
        (some []) with
    | none => none
    | some deps =>
      some
        (Event.clear s 0 0 0 1 :: deps ++
          [Event.draw s (assembleUniforms g b s.dims time p)])

/-- Outcome of running Buffer::new: the constructed value, a
`std::process::exit` with the given code, or a panic from `.unwrap()`.
There is no error-value constructor because the Rust function returns a bare
`Self` and has no error path that returns. -/
inductive BuildOutcome (α : Type) where
  | ok (a : α)
  | exited (code : Nat)
  | panicked
deriving DecidableEq

/-- The BufferConfig fields consumed by Buffer::new in src/opengl/buffer.rs:
the vertex and fragment shader paths and the render-target dimensions. -/
structure BufferConfig where
  vertex : String
  fragment : String
  width : Nat
  height : Nat
deriving DecidableEq

/-- The collaborators Buffer::new interacts with: reading a shader source
file (File::open + read_to_string), compiling a program (Program::new), and
allocating an empty texture (Texture2d::empty); each can fail. -/
structure RenderCtx where
  read : String → Option String
  compile : String → String → Option Nat
  alloc : Nat → Nat → Option Texture

/-- Buffer::new from src/opengl/buffer.rs: opens and reads the vertex shader
file (any failure runs `error!` and `std::process::exit(1)`), then the
fragment shader file (same exits), compiles the program (on error, `error!`
and `std::process::exit(1)`), and allocates the backing texture with
`.unwrap()` (a panic on failure). On success the buffer starts with the
given attachments and no dependencies. -/
def buffer_new (ctx : RenderCtx) (config : BufferConfig)
    (attachments : List Texture) : BuildOutcome Buffer :=
  match ctx.read config.vertex with
  | none => BuildOutcome.exited 1
  | some vsrc =>
    match ctx.read config.fragment with
    | none => BuildOutcome.exited 1
    | some fsrc =>
      match ctx.compile vsrc fsrc with
      | none => BuildOutcome.exited 1
      | some prog =>
        match ctx.alloc config.width config.height with
        | none => BuildOutcome.panicked
        | some tex => BuildOutcome.ok ⟨tex, prog, attachments, []⟩

/-- Modelled from the spec: `Renderer::reload` and the graph build live in
src/opengl/renderer.rs, which is not among the sources; spec section 4.4
says reload "rebuilds the entire Graph from scratch" and section 7 records
that the reference behavior "aborts the whole process on reload failure".
Each pass is built with Buffer::new (src/opengl/buffer.rs), so a failing
pass build exits or panics the whole rebuild. -/
def buildBuffers (ctx : RenderCtx) : List BufferConfig →
    BuildOutcome (List Buffer)
  | [] => BuildOutcome.ok []
  | c :: cs =>
    match buffer_new ctx c [] with
    | BuildOutcome.ok b =>
      match buildBuffers ctx cs with
      | BuildOutcome.ok bs => BuildOutcome.ok (b :: bs)
      | BuildOutcome.exited code => BuildOutcome.exited code
      | BuildOutcome.panicked => BuildOutcome.panicked
    | BuildOutcome.exited code => BuildOutcome.exited code
    | BuildOutcome.panicked => BuildOutcome.panicked

/-- Modelled from the spec: the SIGHUP arm of the event loop in src/main.rs
reparses the configuration and calls `renderer.reload(&config)`; the result
is the graph in effect afterwards. Because the rebuild goes through
Buffer::new, a failed rebuild exits the process and no graph at all remains
in effect, rather than falling back to `oldGraph`. -/
def reloadStep (ctx : RenderCtx) (_oldGraph : List Buffer)
    (newConfigs : List BufferConfig) : BuildOutcome (List Buffer) :=
  match buildBuffers ctx newConfigs with
  | BuildOutcome.ok g => BuildOutcome.ok g
  | BuildOutcome.exited code => BuildOutcome.exited code
  | BuildOutcome.panicked => BuildOutcome.panicked

/-- Placeholder texture for list lookups with `List.getD`. -/
def dummyTexture : Texture := ⟨0, 0, 0⟩

/-! ### Helper facts about uniform names

The sampler uniform names are the strings `texture` and `buffer` followed by
the decimal representation of the running index, so distinctness of the
names requires injectivity of `Nat.repr`, proved here via `Nat.digits`. -/

lemma append_ne_of_charAt_ne (a b s : String) (n : Nat) (hn : n < a.data.length)
    (h : a.data[n]? ≠ b.data[n]?) : a ++ s ≠ b := by
  intro he
  apply h
  have h2 := congrArg String.data he
  rw [String.data_append] at h2
  rw [← List.getElem?_append_left hn, h2]

lemma append_ne_append_of_charAt_ne (a b s t : String) (n : Nat)
    (hna : n < a.data.length) (hnb : n < b.data.length)
    (h : a.data[n]? ≠ b.data[n]?) : a ++ s ≠ b ++ t := by
  intro he
  apply h
  have h2 := congrArg String.data he
  rw [String.data_append, String.data_append] at h2
  rw [← List.getElem?_append_left hna, ← List.getElem?_append_left hnb, h2]

lemma strAppend_left_cancel {a s t : String} (h : a ++ s = a ++ t) : s = t := by
  apply String.ext
  have h2 := congrArg String.data h
  rw [String.data_append, String.data_append] at h2
  exact List.append_cancel_left h2

lemma digitChar_inj_lt : ∀ a < 10, ∀ b < 10,
    Nat.digitChar a = Nat.digitChar b → a = b := by decide

lemma toDigitsCore_succ (f n : Nat) (ds : List Char) :
    Nat.toDigitsCore 10 (f + 1) n ds =
      if n / 10 = 0 then Nat.digitChar (n % 10) :: ds
      else Nat.toDigitsCore 10 f (n / 10) (Nat.digitChar (n % 10) :: ds) := by
  simp only [Nat.toDigitsCore]

lemma asString_inj {l₁ l₂ : List Char} (h : l₁.asString = l₂.asString) :
    l₁ = l₂ :=
  congrArg String.data h

lemma toDigitsCore_eq_digits (fuel : Nat) :
    ∀ (n : Nat) (ds : List Char), n < fuel →
      Nat.toDigitsCore 10 fuel n ds =
        (if n = 0 then ['0'] else
          ((Nat.digits 10 n).map Nat.digitChar).reverse) ++ ds := by
  induction fuel with
  | zero => intro n ds hn; omega
  | succ f ih =>
    intro n ds hn
    rw [toDigitsCore_succ]
    by_cases h0 : n / 10 = 0
    · rw [if_pos h0]
      by_cases hz : n = 0
      · subst hz; rfl
      · rw [if_neg hz]
        rw [Nat.digits_def' (by norm_num : (1:Nat) < 10) (Nat.pos_of_ne_zero hz), h0]
        have hlt : n < 10 := by omega
        simp [Nat.mod_eq_of_lt hlt]
    · rw [if_neg h0]
      have hdiv : n / 10 < f := by
        have h1 : n / 10 < n := Nat.div_lt_self (by omega) (by norm_num)
        omega
      rw [ih (n / 10) _ hdiv]
      have hz : n ≠ 0 := by
        intro h; subst h; simp at h0
      rw [if_neg h0, if_neg hz]
      rw [Nat.digits_def' (by norm_num : (1:Nat) < 10) (Nat.pos_of_ne_zero hz)]
      simp [List.reverse_cons, List.append_assoc]

lemma toDigits_eq_digits (n : Nat) :
    Nat.toDigits 10 n =
      if n = 0 then ['0'] else
        ((Nat.digits 10 n).map Nat.digitChar).reverse := by
  have h := toDigitsCore_eq_digits (n + 1) n [] (by omega)
  simpa [Nat.toDigits] using h

lemma map_digitChar_inj : ∀ l₁ l₂ : List Nat,
    (∀ x ∈ l₁, x < 10) → (∀ x ∈ l₂, x < 10) →
    l₁.map Nat.digitChar = l₂.map Nat.digitChar → l₁ = l₂ := by
  intro l₁
  induction l₁ with
  | nil =>
    intro l₂ _ _ h
    cases l₂ with
    | nil => rfl
    | cons b m => simp at h
  | cons a l ih =>
    intro l₂ h1 h2 h
    cases l₂ with
    | nil => simp at h
    | cons b m =>
      simp only [List.map_cons, List.cons.injEq] at h
      have ha := h1 a (by simp)
      have hb := h2 b (by simp)
      have hab := digitChar_inj_lt a ha b hb h.1
      rw [hab,
        ih m (fun x hx => h1 x (by simp [hx])) (fun x hx => h2 x (by simp [hx])) h.2]

lemma natRepr_inj {m n : Nat} (h : Nat.repr m = Nat.repr n) : m = n := by
  have h1 : (Nat.toDigits 10 m).asString = (Nat.toDigits 10 n).asString := h
  have h2 : Nat.toDigits 10 m = Nat.toDigits 10 n := asString_inj h1
  rw [toDigits_eq_digits, toDigits_eq_digits] at h2
  by_cases hm : m = 0 <;> by_cases hn : n = 0
  · omega
  · exfalso
    rw [if_pos hm, if_neg hn] at h2
    have h3 : (Nat.digits 10 n).map Nat.digitChar = ['0'] := by
      have := congrArg List.reverse h2
      simpa using this.symm
    have h4 : Nat.digits 10 n = [0] := by
      cases hd : Nat.digits 10 n with
      | nil => rw [hd] at h3; simp at h3
      | cons d ds =>
        rw [hd] at h3
        cases ds with
        | nil =>
          simp only [List.map_cons, List.map_nil, List.cons.injEq] at h3
          have hdlt : d < 10 := Nat.digits_lt_base (by norm_num) (by rw [hd]; simp)
          have hd0 : d = 0 := digitChar_inj_lt d hdlt 0 (by norm_num) (by rw [h3.1]; rfl)
          rw [hd0]
        | cons e es => simp at h3
    have h5 := Nat.getLast_digit_ne_zero 10 hn
    simp [h4] at h5
  · exfalso
    rw [if_neg hm, if_pos hn] at h2
    have h3 : (Nat.digits 10 m).map Nat.digitChar = ['0'] := by
      have := congrArg List.reverse h2
      simpa using this
    have h4 : Nat.digits 10 m = [0] := by
      cases hd : Nat.digits 10 m with
      | nil => rw [hd] at h3; simp at h3
      | cons d ds =>
        rw [hd] at h3
        cases ds with
        | nil =>
          simp only [List.map_cons, List.map_nil, List.cons.injEq] at h3
          have hdlt : d < 10 := Nat.digits_lt_base (by norm_num) (by rw [hd]; simp)
          have hd0 : d = 0 := digitChar_inj_lt d hdlt 0 (by norm_num) (by rw [h3.1]; rfl)
          rw [hd0]
        | cons e es => simp at h3
    have h5 := Nat.getLast_digit_ne_zero 10 hm
    simp [h4] at h5
  · rw [if_neg hm, if_neg hn] at h2
    have h3 := List.reverse_injective h2
    have h4 := map_digitChar_inj (Nat.digits 10 m) (Nat.digits 10 n)
      (fun x hx => Nat.digits_lt_base (by norm_num) hx)
      (fun x hx => Nat.digits_lt_base (by norm_num) hx) h3
    have h5 := Nat.ofDigits_digits 10 m
    rw [h4, Nat.ofDigits_digits] at h5
    exact h5.symm

lemma texName_inj {i j : Nat}
    (h : "texture" ++ Nat.repr i = "texture" ++ Nat.repr j) : i = j :=
  natRepr_inj (strAppend_left_cancel h)

lemma bufName_inj {i j : Nat}
    (h : "buffer" ++ Nat.repr i = "buffer" ++ Nat.repr j) : i = j :=
  natRepr_inj (strAppend_left_cancel h)

/-! ### Structure of the assembled uniform list -/

lemma length_textureUniforms :
    ∀ (ts : List Texture) (n : Nat), (textureUniforms n ts).length = ts.length := by
  intro ts
  induction ts with
  | nil => intro n; rfl
  | cons t ts ih => intro n; simp [textureUniforms, ih (n + 1)]

lemma length_bufferUniforms (g : Graph) :
    ∀ (ds : List Nat) (n : Nat), (bufferUniforms g n ds).length = ds.length := by
  intro ds
  induction ds with
  | nil => intro n; rfl
  | cons d ds ih => intro n; simp [bufferUniforms, ih (n + 1)]

lemma countP_textureUniforms (i : Nat) :
    ∀ (ts : List Texture) (n : Nat),
      (textureUniforms n ts).countP (fun u => u.1 == "texture" ++ Nat.repr i) =
        if n ≤ i ∧ i < n + ts.length then 1 else 0 := by
  intro ts
  induction ts with
  | nil =>
    intro n
    simp only [textureUniforms, List.countP_nil, List.length_nil]
    rw [if_neg (by omega)]
  | cons t ts ih =>
    intro n
    rw [textureUniforms, List.countP_cons, ih (n + 1)]
    simp only [List.length_cons]
    by_cases hni : n = i
    · subst hni
      have hb : (("texture" ++ Nat.repr n, UVal.usampler t).1 ==
          "texture" ++ Nat.repr n) = true := by simp
      rw [hb, if_pos rfl]
      split_ifs <;> omega
    · have hb : (("texture" ++ Nat.repr n, UVal.usampler t).1 ==
          "texture" ++ Nat.repr i) = false := by
        simp only [beq_eq_false_iff_ne]
        exact fun hh => hni (texName_inj hh)
      rw [hb, if_neg (show ¬(false = true) by simp)]
      split_ifs <;> omega

lemma countP_bufferUniforms_bufName (g : Graph) (i : Nat) :
    ∀ (ds : List Nat) (n : Nat),
      (bufferUniforms g n ds).countP (fun u => u.1 == "buffer" ++ Nat.repr i) =
        if n ≤ i ∧ i < n + ds.length then 1 else 0 := by
  intro ds
  induction ds with
  | nil =>
    intro n
    simp only [bufferUniforms, List.countP_nil, List.length_nil]
    rw [if_neg (by omega)]
  | cons d ds ih =>
    intro n
    rw [bufferUniforms, List.countP_cons, ih (n + 1)]
    simp only [List.length_cons]
    by_cases hni : n = i
    · subst hni
      have hb : (("buffer" ++ Nat.repr n,
          UVal.usampler (depBuffer g d).texture).1 ==
          "buffer" ++ Nat.repr n) = true := by simp
      rw [hb, if_pos rfl]
      split_ifs <;> omega
    · have hb : (("buffer" ++ Nat.repr n,
          UVal.usampler (depBuffer g d).texture).1 ==
          "buffer" ++ Nat.repr i) = false := by
        simp only [beq_eq_false_iff_ne]
        exact fun hh => hni (bufName_inj hh)
      rw [hb, if_neg (show ¬(false = true) by simp)]
      split_ifs <;> omega

lemma countP_textureUniforms_bufName (i : Nat) :
    ∀ (ts : List Texture) (n : Nat),
      (textureUniforms n ts).countP (fun u => u.1 == "buffer" ++ Nat.repr i) = 0 := by
  intro ts
  induction ts with
  | nil => intro n; rfl
  | cons t ts ih =>
    intro n
    rw [textureUniforms, List.countP_cons, ih (n + 1)]
    have hb : (("texture" ++ Nat.repr n, UVal.usampler t).1 ==
        "buffer" ++ Nat.repr i) = false := by
      simp only [beq_eq_false_iff_ne]
      exact append_ne_append_of_charAt_ne "texture" "buffer" _ _ 0
        (by decide) (by decide) (by decide)
    rw [hb, if_neg (show ¬(false = true) by simp)]

lemma countP_bufferUniforms_texName (g : Graph) (i : Nat) :
    ∀ (ds : List Nat) (n : Nat),
      (bufferUniforms g n ds).countP (fun u => u.1 == "texture" ++ Nat.repr i) = 0 := by
  intro ds
  induction ds with
  | nil => intro n; rfl
  | cons d ds ih =>
    intro n
    rw [bufferUniforms, List.countP_cons, ih (n + 1)]
    have hb : (("buffer" ++ Nat.repr n,
        UVal.usampler (depBuffer g d).texture).1 ==
        "texture" ++ Nat.repr i) = false := by
      simp only [beq_eq_false_iff_ne]
      exact append_ne_append_of_charAt_ne "buffer" "texture" _ _ 0
        (by decide) (by decide) (by decide)
    rw [hb, if_neg (show ¬(false = true) by simp)]

lemma getElem?_textureUniforms :
    ∀ (ts : List Texture) (n i : Nat), i < ts.length →
      (textureUniforms n ts)[i]? =
        some ("texture" ++ Nat.repr (n + i),
          UVal.usampler (ts.getD i dummyTexture)) := by
  intro ts
  induction ts with
  | nil => intro n i h; simp at h
  | cons t ts ih =>
    intro n i h
    cases i with
    | zero => simp [textureUniforms]
    | succ j =>
      have h2 : j < ts.length := by simpa using h
      rw [textureUniforms, List.getElem?_cons_succ, ih (n + 1) j h2]
      have hn : n + 1 + j = n + (j + 1) := by omega
      rw [hn]
      simp [List.getD]

lemma getElem?_bufferUniforms (g : Graph) :
    ∀ (ds : List Nat) (n j : Nat), j < ds.length →
      (bufferUniforms g n ds)[j]? =
        some ("buffer" ++ Nat.repr (n + j),
          UVal.usampler (depBuffer g (ds.getD j 0)).texture) := by
  intro ds
  induction ds with
  | nil => intro n j h; simp at h
  | cons d ds ih =>
    intro n j h
    cases j with
    | zero => simp [bufferUniforms]
    | succ k =>
      have h2 : k < ds.length := by simpa using h
      rw [bufferUniforms, List.getElem?_cons_succ, ih (n + 1) k h2]
      have hn : n + 1 + k = n + (k + 1) := by omega
      rw [hn]
      simp [List.getD]

/-! ### Unfolding and divergence lemmas for renderTo -/

lemma renderTo_succ (g : Graph) (fuel : Nat) (b : Buffer) (s : Surf)
    (time : ℚ) (p : Pointer4) :
    renderTo g (fuel + 1) b s time p =
      match
        b.depends.foldr
          (fun d acc =>
            match acc with
            | none => none
            | some rest =>
              match renderTo g fuel (depBuffer g d)
                  (Surf.tex (depBuffer g d).texture) time p with
              | none => none
              | some tr => some (tr ++ rest))
          (some []) with
      | none => none
      | some deps =>
        some
          (Event.clear s 0 0 0 1 :: deps ++
            [Event.draw s (assembleUniforms g b s.dims time p)]) := rfl

lemma foldr_none_of_mem {α β : Type} (f : α → Option β → Option β) (d : α)
    (hd : ∀ acc, f d acc = none) (hkeep : ∀ x, f x none = none) :
    ∀ (ds : List α) (acc : Option β), d ∈ ds → ds.foldr f acc = none := by
  intro ds
  induction ds with
  | nil => intro acc h; simp at h
  | cons x rest ih =>
    intro acc hmem
    rw [List.foldr_cons]
    rcases List.mem_cons.mp hmem with hx | hrest
    · subst hx; exact hd _
    · rw [ih acc hrest]; exact hkeep x

lemma renderTo_none_of_dep_none (g : Graph) (fuel : Nat) (b : Buffer)
    (s : Surf) (time : ℚ) (p : Pointer4) (d : Nat) (hd : d ∈ b.depends)
    (hnone : renderTo g fuel (depBuffer g d)
      (Surf.tex (depBuffer g d).texture) time p = none) :
    renderTo g (fuel + 1) b s time p = none := by
  rw [renderTo_succ]
  rw [foldr_none_of_mem
    (fun d2 acc =>
      match acc with
      | none => none
      | some rest =>
        match renderTo g fuel (depBuffer g d2)
            (Surf.tex (depBuffer g d2).texture) time p with
        | none => none
        | some tr => some (tr ++ rest))
    d
    (fun acc => by
      cases acc with
      | none => rfl
      | some rest =>
        show (match renderTo g fuel (depBuffer g d)
            (Surf.tex (depBuffer g d).texture) time p with
          | none => none
          | some tr => some (tr ++ rest)) = none
        rw [hnone])
    (fun x => rfl) b.depends (some []) hd]

/-! ### Concrete graphs used as inputs -/

/-- Texture number i at 100 x 100, used by the concrete graphs below. -/
def texN (i : Nat) : Texture := ⟨i, 100, 100⟩

/-- The initial pointer state of the event loop in src/main.rs. -/
def pz : Pointer4 := ⟨0, 0, 0, 0⟩

/-- The shared pass D of the diamond graph. -/
def bufD : Buffer := ⟨texN 0, 0, [], []⟩

/-- Pass A of the diamond graph, depending on D. -/
def bufA : Buffer := Buffer.link_depends ⟨texN 1, 1, [], []⟩ [0]

/-- Pass B of the diamond graph, depending on D. -/
def bufB : Buffer := Buffer.link_depends ⟨texN 2, 2, [], []⟩ [0]

/-- The root of the diamond graph, depending on A and B. -/
def bufRoot : Buffer := Buffer.link_depends ⟨texN 3, 3, [], []⟩ [1, 2]

/-- The diamond graph: A and B both depend on D, the root on A and B. -/
def gDiamond : Graph := [bufD, bufA, bufB, bufRoot]

/-- First node of a two-node reference cycle, linked to the second. -/
def bufC0 : Buffer := Buffer.link_depends ⟨texN 0, 0, [], []⟩ [1]

/-- Second node of the cycle, linked back to the first. -/
def bufC1 : Buffer := Buffer.link_depends ⟨texN 1, 1, [], []⟩ [0]

/-- The cyclic graph built from bufC0 and bufC1. -/
def gCycle : Graph := [bufC0, bufC1]

/-- Recognizes a draw event targeting the given surface. -/
def isDrawTo (s : Surf) : Event → Bool
  | Event.draw t _ => t == s
  | _ => false

lemma gCycle_render_none : ∀ fuel : Nat,
    renderTo gCycle fuel bufC0 (Surf.tex (texN 0)) 0 pz = none ∧
    renderTo gCycle fuel bufC1 (Surf.tex (texN 1)) 0 pz = none := by
  intro fuel
  induction fuel with
  | zero => exact ⟨rfl, rfl⟩
  | succ f ih =>
    exact ⟨renderTo_none_of_dep_none gCycle f bufC0 _ 0 pz 1 (by decide) ih.2,
      renderTo_none_of_dep_none gCycle f bufC1 _ 0 pz 0 (by decide) ih.1⟩

/-! ### Contexts and inputs for the build/reload theorems -/

/-- Context whose filesystem only holds the vertex shader source, so the
fragment shader file cannot be opened. -/
def ctxNoFragment : RenderCtx :=
  ⟨fun pth => if pth = "v.glsl" then some "vsrc" else none,
    fun _ _ => some 0, fun w h => some ⟨42, w, h⟩⟩

/-- Context where both shader files read fine but compilation fails. -/
def ctxBadCompile : RenderCtx :=
  ⟨fun _ => some "vsrc", fun _ _ => none, fun w h => some ⟨42, w, h⟩⟩

/-- Context where allocating the backing texture fails. -/
def ctxBadAlloc : RenderCtx :=
  ⟨fun _ => some "vsrc", fun _ _ => some 0, fun _ _ => none⟩

/-- A fully working context. -/
def ctxOk : RenderCtx :=
  ⟨fun _ => some "vsrc", fun _ _ => some 0, fun w h => some ⟨42, w, h⟩⟩

/-- A buffer configuration naming the two shader files. -/
def cfgVF : BufferConfig := ⟨"v.glsl", "f.glsl", 64, 64⟩

/-- Buffer with one attachment and one dependency, for the witnesses. -/
def bufW : Buffer := Buffer.link_depends ⟨texN 5, 7, [texN 9], []⟩ [0]

/-- Arena for the witness buffer: its dependency 0 is bufD. -/
def gW : Graph := [bufD]

/-- Witness render surface. -/
def sW : Surf := Surf.screen 640 480

/-- Witness pointer state. -/
def pW : Pointer4 := ⟨1, 2, 3, 4⟩

/-! ### Claims -/

/-- C1: the claim states that resolving a `NodeParameter::NodeConnection`
link yields the target node's current output value and never the type's
default. The code's only resolution function, `NodeParameter::or_default`,
returns `Default::default()` for every `NodeConnection`, without consulting
any node: the link to "n" resolves to the type default 0 no matter what
node "n" currently outputs, and the same holds for every link name. -/
theorem claim1_link_parameter_resolves_to_type_default :
    (NodeParameter.NodeConnection "n" : NodeParameter ℚ).or_default =
      (default : ℚ) ∧
    (default : ℚ) = 0 ∧
    ∀ name : String,
      (NodeParameter.NodeConnection name : NodeParameter ℚ).or_default = 0 :=
  ⟨rfl, rfl, fun _ => rfl⟩

/-- C2: the claim states that in a diamond graph a shared dependency D is
rendered exactly once per render call. Evaluating the embedded
`Buffer::render_to` on the diamond graph shows pass D's texture receives two
draw calls in the single frame, one per consumer, because the recursion has
no per-frame memoization. -/
theorem claim2_shared_pass_drawn_twice :
    (renderTo gDiamond 4 bufRoot (Surf.screen 800 600) 0 pz).map
      (fun tr => tr.countP (isDrawTo (Surf.tex (texN 0)))) = some 2 ∧
    (2 : Nat) ≠ 1 := by
  exact ⟨rfl, by decide⟩

/-- C3: the claim states both vertical pointer components are flipped
against the surface height H. In the code the current-position component is
`get_dimensions().0 - pointer[1]`, i.e. width minus y: on a 800 x 600
surface with y = 50 the uniform holds 750, not 600 - 50 = 550. The
drag-origin component does use the height (600 - 60 = 540). -/
theorem claim3_pointer_flip_uses_width_for_current_y :
    pointerUniform (800, 600) ⟨10, 50, 20, 60⟩ = UVal.uvec4 10 750 20 540 ∧
    (750 : ℚ) ≠ 600 - 50 := by
  refine ⟨?e, by norm_num⟩
  show UVal.uvec4 10 ((800 : ℚ) - 50) 20 ((600 : ℚ) - 60) = _
  norm_num

/-- C4: the claim states a cyclic node set is rejected at build time with a
CycleError and never causes infinite recursion while rendering. The
embedded construction (Buffer::new result wired by `link_depends`) has no
error path at all, so the two-node cycle builds; rendering either node of
the cycle then fails to terminate: it returns none for every recursion
budget. -/
theorem claim4_cycle_not_rejected_and_render_diverges :
    gCycle = [Buffer.link_depends ⟨texN 0, 0, [], []⟩ [1],
      Buffer.link_depends ⟨texN 1, 1, [], []⟩ [0]] ∧
    ∀ fuel : Nat,
      renderTo gCycle fuel bufC0 (Surf.tex (texN 0)) 0 pz = none :=
  ⟨rfl, fun fuel => (gCycle_render_none fuel).1⟩

/-- C5: the claim states a failed reload leaves the previously built graph
in effect. In the reference behavior a reload rebuilds every pass through
Buffer::new, which exits the process on a failure: with the fragment shader
missing, the reload ends in process exit 1, not in the old graph remaining
in effect. -/
theorem claim5_failed_reload_aborts_process :
    reloadStep ctxNoFragment [bufD] [cfgVF] = BuildOutcome.exited 1 ∧
    reloadStep ctxNoFragment [bufD] [cfgVF] ≠ BuildOutcome.ok [bufD] :=
  ⟨rfl, by decide⟩

/-- C6: the claim states every build-time failure is returned to the host
as a structured error value rather than terminating inside the build.
Buffer::new instead terminates: an unreadable fragment shader or a failed
compile runs `std::process::exit(1)`, and a failed texture allocation
panics through `.unwrap()`; only the success path returns. -/
theorem claim6_build_failures_terminate_process :
    buffer_new ctxNoFragment cfgVF [] = BuildOutcome.exited 1 ∧
    buffer_new ctxBadCompile cfgVF [] = BuildOutcome.exited 1 ∧
    buffer_new ctxBadAlloc cfgVF [] = BuildOutcome.panicked ∧
    buffer_new ctxOk cfgVF [] = BuildOutcome.ok ⟨⟨42, 64, 64⟩, 0, [], []⟩ :=
  ⟨rfl, rfl, rfl, rfl⟩

/-- C7: the claim states every node type rejects unknown fields. The four
config structs with `deny_unknown_fields` (shader, blend, text, fps) do
reject an extra `frame` field, but ImageConfig carries no such attribute,
so an image node with the same extra field deserializes successfully. -/
theorem claim7_image_unknown_field_accepted :
    nodeFromFields [("type", CVal.str "image"), ("path", CVal.str "a.png"),
      ("frame", CVal.num 3)] = Except.ok (NodeConfig.Image ⟨"a.png"⟩) ∧
    isSchemaError (nodeFromFields [("type", CVal.str "shader"),
      ("vertex", CVal.str "v.glsl"), ("fragment", CVal.str "f.glsl"),
      ("frame", CVal.num 3)]) = true ∧
    isSchemaError (nodeFromFields [("type", CVal.str "blend"),
      ("operation", CVal.str "add"), ("inputs", CVal.arr [CVal.str "a"]),
      ("frame", CVal.num 3)]) = true ∧
    isSchemaError (nodeFromFields [("type", CVal.str "text"),
      ("text", CVal.obj [("Static", CVal.str "hello")]),
      ("frame", CVal.num 3)]) = true ∧
    isSchemaError (nodeFromFields [("type", CVal.str "fps"),
      ("frame", CVal.num 3)]) = true :=
  ⟨rfl, rfl, rfl, rfl, rfl⟩

/-- C8: every render invocation hands `surface.draw` a uniform list that
contains, besides resolution/time/pointer, exactly one sampler named
`texture{i}` for each attachment index i (in attachment order, bound to
that attachment) and exactly one sampler named `buffer{j}` for each
dependency index j (in dependency order, bound to that dependency's
current backing texture). -/
theorem claim8_sampler_uniforms (g : Graph) (b : Buffer) (s : Surf)
    (time : ℚ) (p : Pointer4) :
    (∀ (fuel : Nat) (tr : List Event), renderTo g fuel b s time p = some tr →
      Event.draw s (assembleUniforms g b s.dims time p) ∈ tr) ∧
    (∀ i, i < b.attachments.length →
      (assembleUniforms g b s.dims time p).countP
          (fun u => u.1 == "texture" ++ Nat.repr i) = 1 ∧
      (assembleUniforms g b s.dims time p)[3 + i]? =
        some ("texture" ++ Nat.repr i,
          UVal.usampler (b.attachments.getD i dummyTexture))) ∧
    (∀ j, j < b.depends.length →
      (assembleUniforms g b s.dims time p).countP
          (fun u => u.1 == "buffer" ++ Nat.repr j) = 1 ∧
      (assembleUniforms g b s.dims time p)[3 + b.attachments.length + j]? =
        some ("buffer" ++ Nat.repr j,
          UVal.usampler (depBuffer g (b.depends.getD j 0)).texture)) := by
  refine ⟨?memdraw, ?tex, ?buf⟩
  case memdraw =>
    intro fuel tr h
    cases fuel with
    | zero => simp [renderTo] at h
    | succ f =>
      rw [renderTo_succ] at h
      split at h
      · exact absurd h (by simp)
      · injection h with h2
        rw [← h2]
        simp
  case tex =>
    intro i hi
    constructor
    · have h1 : (("resolution", UVal.uvec2 s.dims.1 s.dims.2).1 ==
          "texture" ++ Nat.repr i) = false := by
        simp only [beq_eq_false_iff_ne]
        exact fun hh => append_ne_of_charAt_ne "texture" "resolution"
          (Nat.repr i) 0 (by decide) (by decide) hh.symm
      have h2 : (("time", UVal.ufloat time).1 ==
          "texture" ++ Nat.repr i) = false := by
        simp only [beq_eq_false_iff_ne]
        exact fun hh => append_ne_of_charAt_ne "texture" "time"
          (Nat.repr i) 1 (by decide) (by decide) hh.symm
      have h3 : (("pointer", pointerUniform s.dims p).1 ==
          "texture" ++ Nat.repr i) = false := by
        simp only [beq_eq_false_iff_ne]
        exact fun hh => append_ne_of_charAt_ne "texture" "pointer"
          (Nat.repr i) 0 (by decide) (by decide) hh.symm
      rw [assembleUniforms, List.countP_cons, List.countP_cons,
        List.countP_cons, List.countP_append, countP_textureUniforms,
        countP_bufferUniforms_texName, h1, h2, h3,
        if_pos (⟨Nat.zero_le i, by omega⟩ : 0 ≤ i ∧ i < 0 + b.attachments.length)]
      simp
    · have hlen : i < (textureUniforms 0 b.attachments).length := by
        rw [length_textureUniforms]; exact hi
      have h3i : 3 + i = i + 1 + 1 + 1 := by omega
      rw [assembleUniforms, h3i, List.getElem?_cons_succ,
        List.getElem?_cons_succ, List.getElem?_cons_succ,
        List.getElem?_append_left hlen,
        getElem?_textureUniforms b.attachments 0 i hi, Nat.zero_add]
  case buf =>
    intro j hj
    constructor
    · have h1 : (("resolution", UVal.uvec2 s.dims.1 s.dims.2).1 ==
          "buffer" ++ Nat.repr j) = false := by
        simp only [beq_eq_false_iff_ne]
        exact fun hh => append_ne_of_charAt_ne "buffer" "resolution"
          (Nat.repr j) 0 (by decide) (by decide) hh.symm
      have h2 : (("time", UVal.ufloat time).1 ==
          "buffer" ++ Nat.repr j) = false := by
        simp only [beq_eq_false_iff_ne]
        exact fun hh => append_ne_of_charAt_ne "buffer" "time"
          (Nat.repr j) 0 (by decide) (by decide) hh.symm
      have h3 : (("pointer", pointerUniform s.dims p).1 ==
          "buffer" ++ Nat.repr j) = false := by
        simp only [beq_eq_false_iff_ne]
        exact fun hh => append_ne_of_charAt_ne "buffer" "pointer"
          (Nat.repr j) 0 (by decide) (by decide) hh.symm
      rw [assembleUniforms, List.countP_cons, List.countP_cons,
        List.countP_cons, List.countP_append, countP_bufferUniforms_bufName,
        countP_textureUniforms_bufName, h1, h2, h3,
        if_pos (⟨Nat.zero_le j, by omega⟩ : 0 ≤ j ∧ j < 0 + b.depends.length)]
      simp
    · have hlen : (textureUniforms 0 b.attachments).length ≤
          b.attachments.length + j := by
        rw [length_textureUniforms]; omega
      have h3j : 3 + b.attachments.length + j =
          b.attachments.length + j + 1 + 1 + 1 := by omega
      rw [assembleUniforms, h3j, List.getElem?_cons_succ,
        List.getElem?_cons_succ, List.getElem?_cons_succ,
        List.getElem?_append_right hlen, length_textureUniforms]
      have hsub : b.attachments.length + j - b.attachments.length = j := by
        omega
      rw [hsub, getElem?_bufferUniforms g b.depends 0 j hj, Nat.zero_add]

/-- Witness instantiating C8 on a concrete pass with one attachment and one
dependency, at fuel 2 on the witness surface. -/
theorem claim8_sampler_uniforms_witness :
    Event.draw sW (assembleUniforms gW bufW sW.dims 1 pW) ∈
      (renderTo gW 2 bufW sW 1 pW).getD [] ∧
    (assembleUniforms gW bufW sW.dims 1 pW).countP
      (fun u => u.1 == "texture" ++ Nat.repr 0) = 1 ∧
    (assembleUniforms gW bufW sW.dims 1 pW)[3]? =
      some ("texture" ++ Nat.repr 0, UVal.usampler (texN 9)) ∧
    (assembleUniforms gW bufW sW.dims 1 pW).countP
      (fun u => u.1 == "buffer" ++ Nat.repr 0) = 1 ∧
    (assembleUniforms gW bufW sW.dims 1 pW)[4]? =
      some ("buffer" ++ Nat.repr 0, UVal.usampler (texN 0)) := by
  have h := claim8_sampler_uniforms gW bufW sW 1 pW
  exact ⟨h.1 2 ((renderTo gW 2 bufW sW 1 pW).getD []) rfl,
    (h.2.1 0 (by decide)).1, (h.2.1 0 (by decide)).2,
    (h.2.2 0 (by decide)).1, (h.2.2 0 (by decide)).2⟩

/-- C9: every successful render invocation submits, as its first GPU event
on the target surface, a clear to opaque black (0.0, 0.0, 0.0, 1.0); the
uniforms are bound and the draw issued only afterwards. -/
theorem claim9_clear_first (g : Graph) (fuel : Nat) (b : Buffer) (s : Surf)
    (time : ℚ) (p : Pointer4) (tr : List Event)
    (h : renderTo g fuel b s time p = some tr) :
    tr.head? = some (Event.clear s 0 0 0 1) := by
  cases fuel with
  | zero => simp [renderTo] at h
  | succ f =>
    rw [renderTo_succ] at h
    split at h
    · exact absurd h (by simp)
    · injection h with h2
      rw [← h2]
      rfl

/-- Witness instantiating C9 on the concrete witness pass. -/
theorem claim9_clear_first_witness :
    ((renderTo gW 2 bufW sW 1 pW).getD []).head? =
      some (Event.clear sW 0 0 0 1) :=
  claim9_clear_first gW 2 bufW sW 1 pW
    ((renderTo gW 2 bufW sW 1 pW).getD []) rfl

/-- C10: pressing the left mouse button copies the current pointer position
into the drag-origin components, and releasing it resets the drag origin to
exactly (0.0, 0.0); since the state is only the 4-tuple, the released state
coincides with the state of an active drag whose origin is the corner:
pressing at (0, 0) and moving to (x, y) produces the very state a release
at (x, y) produces. -/
theorem claim10_pointer_press_release (p : Pointer4) (x y c d : ℚ) :
    pointerStep p PointerEvent.mousePressed = ⟨p.p0, p.p1, p.p0, p.p1⟩ ∧
    pointerStep p PointerEvent.mouseReleased = ⟨p.p0, p.p1, 0, 0⟩ ∧
    pointerStep (⟨x, y, c, d⟩ : Pointer4) PointerEvent.mouseReleased =
      pointerStep (pointerStep ⟨0, 0, c, d⟩ PointerEvent.mousePressed)
        (PointerEvent.mouseMoved x y) :=
  ⟨rfl, rfl, rfl⟩

end Yotredash
